import Mathlib

/-!
Verification of the pension projection engine (`src/models.py`,
`src/pension_calculator.py`).

Python floats are modelled as rationals (ℚ), integers as ℤ, and a raised
`ValueError` as the `Except.error` case of `Except String _`.
-/

namespace PensjonSim

/-- The validated parameter bundle (`PensionInputs` in `src/models.py`).
Field names and order follow the source. -/
structure PensionInputs where
  current_age : ℤ
  birth_year : ℤ
  current_folketrygd_balance : ℚ
  current_otp_balance : ℚ
  current_savings : ℚ
  annual_savings : ℚ
  annual_rental_savings : ℚ
  g_amount : ℚ
  salary_in_g : ℚ
  state_accrual_rate : ℚ
  otp_below_rate : ℚ
  otp_above_rate : ℚ
  folketrygd_growth : ℚ
  otp_growth : ℚ
  savings_growth : ℚ
  life_expectancy : ℤ
  deriving Repr, DecidableEq

/-- `SALARY_CAP_IN_G = 7.1` from `src/pension_calculator.py`. -/
def SALARY_CAP_IN_G : ℚ := 71/10

/-- `MIN_NAV_PENSION_AGE = 62`. -/
def MIN_NAV_PENSION_AGE : ℤ := 62

/-- `STANDARD_PENSION_AGE = 67`. -/
def STANDARD_PENSION_AGE : ℤ := 67

/-- `MAX_NAV_PENSION_AGE = 75`. -/
def MAX_NAV_PENSION_AGE : ℤ := 75

/-- `ANNUAL_DIVISOR_REDUCTION = 0.9`. -/
def ANNUAL_DIVISOR_REDUCTION : ℚ := 9/10

/-- The `DELINGSFAKTOR_1963` dict: partial map from age to factor,
entries 62..67. `none` models a missing key (`dict.get` returning `None`). -/
def DELINGSFAKTOR_1963 (age : ℤ) : Option ℚ :=
  if age = 62 then some (2006/100)
  else if age = 63 then some (1925/100)
  else if age = 64 then some (1844/100)
  else if age = 65 then some (1763/100)
  else if age = 66 then some (1683/100)
  else if age = 67 then some (1602/100)
  else none

/-- `get_delingsfaktor_nav` from `src/pension_calculator.py`.
The first branch mirrors the Python fall-through: when
`62 <= pension_age <= 67` the dict is consulted with `.get`, and only a
present entry is returned (all six entries are present, but the
fall-through structure is kept faithful to the source). The keyed access
`DELINGSFAKTOR_1963[67]` in the second branch always succeeds, modelled
with `getD 0`. -/
def get_delingsfaktor_nav (pension_age birth_year life_expectancy : ℤ) : ℚ :=
  match (if MIN_NAV_PENSION_AGE ≤ pension_age ∧ pension_age ≤ STANDARD_PENSION_AGE
         then DELINGSFAKTOR_1963 pension_age else none) with
  | some base => base
  | none =>
    if STANDARD_PENSION_AGE + 1 ≤ pension_age ∧ pension_age ≤ MAX_NAV_PENSION_AGE then
      max 1 ((DELINGSFAKTOR_1963 STANDARD_PENSION_AGE).getD 0
             - ANNUAL_DIVISOR_REDUCTION * ((pension_age - STANDARD_PENSION_AGE : ℤ) : ℚ))
    else
      ((max 1 (life_expectancy - pension_age) : ℤ) : ℚ)

/-- One iteration of the `for age in range(...)` loop body of
`simulate_until_pension_age`, acting on the balance triple
`(folketrygd, otp, savings)`. -/
def simStep (inputs : PensionInputs) (work_until_age age : ℤ)
    (b : ℚ × ℚ × ℚ) : ℚ × ℚ × ℚ :=
  let folketrygd := b.1
  let otp := b.2.1
  let savings := b.2.2
  let salary := inputs.g_amount * inputs.salary_in_g
  let is_working := age < work_until_age
  let bw : ℚ × ℚ × ℚ :=
    if is_working then
      let cap_salary := min salary (inputs.g_amount * SALARY_CAP_IN_G)
      let below_cap := cap_salary
      let above_cap := max 0 (salary - cap_salary)
      (folketrygd + cap_salary * inputs.state_accrual_rate,
       otp + (below_cap * inputs.otp_below_rate + above_cap * inputs.otp_above_rate),
       savings + (inputs.annual_savings + inputs.annual_rental_savings))
    else (folketrygd, otp, savings)
  (bw.1 * (1 + inputs.folketrygd_growth),
   bw.2.1 * (1 + inputs.otp_growth),
   bw.2.2 * (1 + inputs.savings_growth))

/-- The `for age in range(current_age, pension_age)` loop of
`simulate_until_pension_age`, unrolled by recursion on the number of
remaining iterations: `n` steps starting at age `start_age`. -/
def simLoop (inputs : PensionInputs) (work_until_age start_age : ℤ) :
    ℕ → ℚ × ℚ × ℚ → ℚ × ℚ × ℚ
  | 0, b => b
  | Nat.succ k, b =>
      simLoop inputs work_until_age (start_age + 1) k
        (simStep inputs work_until_age start_age b)

/-- `simulate_until_pension_age` from `src/pension_calculator.py`:
validates the two preconditions (raising `ValueError`, modelled as
`Except.error`), then runs the loop from `current_age` to
`pension_age - 1` over the starting balances. -/
def simulate_until_pension_age (inputs : PensionInputs)
    (work_until_age pension_age : ℤ) : Except String (ℚ × ℚ × ℚ) :=
  if pension_age ≤ inputs.current_age then
    Except.error "pension_age must be greater than current_age"
  else if pension_age > inputs.life_expectancy then
    Except.error "pension_age cannot exceed life_expectancy"
  else
    Except.ok (simLoop inputs work_until_age inputs.current_age
      (pension_age - inputs.current_age).toNat
      (inputs.current_folketrygd_balance, inputs.current_otp_balance,
       inputs.current_savings))

/-- `annual_pension_from_balance` from `src/pension_calculator.py`. -/
def annual_pension_from_balance (balance : ℚ)
    (pension_age birth_year life_expectancy : ℤ)
    (use_nav_style : Bool) : ℚ :=
  if balance ≤ 0 then 0
  else
    let divisor :=
      if use_nav_style ∧ MIN_NAV_PENSION_AGE ≤ pension_age then
        get_delingsfaktor_nav pension_age birth_year life_expectancy
      else
        ((max 1 (life_expectancy - pension_age) : ℤ) : ℚ)
    balance / divisor

/-- `PensionInputs.__post_init__` from `src/models.py`: the validating
constructor. `current_year` stands for `datetime.date.today().year`.
The checks appear in source order; each failed check raises
`ValueError`, modelled as `Except.error`. -/
def mkPensionInputs (current_year : ℤ)
    (current_age birth_year : ℤ)
    (current_folketrygd_balance current_otp_balance current_savings
     annual_savings annual_rental_savings g_amount salary_in_g
     state_accrual_rate otp_below_rate otp_above_rate
     folketrygd_growth otp_growth savings_growth : ℚ)
    (life_expectancy : ℤ) : Except String PensionInputs :=
  if ¬ (0 ≤ current_age ∧ current_age ≤ 120) then
    Except.error "current_age must be between 0 and 120"
  else if life_expectancy ≤ current_age then
    Except.error "life_expectancy must be greater than current_age"
  else if ¬ (1900 ≤ birth_year ∧ birth_year ≤ current_year) then
    Except.error "birth_year out of range"
  else if current_folketrygd_balance < 0 then
    Except.error "current_folketrygd_balance cannot be negative"
  else if current_otp_balance < 0 then
    Except.error "current_otp_balance cannot be negative"
  else if current_savings < 0 then
    Except.error "current_savings cannot be negative"
  else if annual_savings < 0 then
    Except.error "annual_savings cannot be negative"
  else if annual_rental_savings < 0 then
    Except.error "annual_rental_savings cannot be negative"
  else if g_amount ≤ 0 then
    Except.error "g_amount must be positive"
  else if salary_in_g < 0 then
    Except.error "salary_in_g cannot be negative"
  else
    Except.ok
      { current_age := current_age
        birth_year := birth_year
        current_folketrygd_balance := current_folketrygd_balance
        current_otp_balance := current_otp_balance
        current_savings := current_savings
        annual_savings := annual_savings
        annual_rental_savings := annual_rental_savings
        g_amount := g_amount
        salary_in_g := salary_in_g
        state_accrual_rate := state_accrual_rate
        otp_below_rate := otp_below_rate
        otp_above_rate := otp_above_rate
        folketrygd_growth := folketrygd_growth
        otp_growth := otp_growth
        savings_growth := savings_growth
        life_expectancy := life_expectancy }

/-- Case analysis of `get_delingsfaktor_nav`: the three policy branches,
with the dict fall-through resolved (every age 62..67 has a table entry). -/
lemma delingsfaktor_eq_cases (a b l : ℤ) :
    get_delingsfaktor_nav a b l =
      if 62 ≤ a ∧ a ≤ 67 then
        (if a = 62 then 2006/100 else if a = 63 then 1925/100
         else if a = 64 then 1844/100 else if a = 65 then 1763/100
         else if a = 66 then 1683/100 else 1602/100)
      else if 68 ≤ a ∧ a ≤ 75 then
        max 1 (1602/100 - (9/10) * ((a - 67 : ℤ) : ℚ))
      else ((max 1 (l - a) : ℤ) : ℚ) := by
  unfold get_delingsfaktor_nav DELINGSFAKTOR_1963 MIN_NAV_PENSION_AGE
    STANDARD_PENSION_AGE MAX_NAV_PENSION_AGE ANNUAL_DIVISOR_REDUCTION
  by_cases h : 62 ≤ a ∧ a ≤ 67
  · obtain ⟨h1, h2⟩ := h
    interval_cases a <;> norm_num
  · by_cases h2 : 68 ≤ a ∧ a ≤ 75
    · have h2a : 67 + 1 ≤ a ∧ a ≤ 75 := by omega
      simp only [if_neg h, if_pos h2a, if_pos h2]
      norm_num
    · have h2a : ¬ (67 + 1 ≤ a ∧ a ≤ 75) := by omega
      simp only [if_neg h, if_neg h2a, if_neg h2]

/-- The resolved divisor is always at least 1. -/
lemma one_le_delingsfaktor (a b l : ℤ) : (1 : ℚ) ≤ get_delingsfaktor_nav a b l := by
  rw [delingsfaktor_eq_cases]
  split_ifs <;> norm_num

/-- C2: for every retirement age, birth year and life expectancy,
`get_delingsfaktor_nav` returns the table value for ages 62..67
(62:20.06, 63:19.25, 64:18.44, 65:17.63, 66:16.83, 67:16.02),
`max(1.0, 16.02 - 0.9*(age - 67))` for ages 68..75, and otherwise
`max(1, life_expectancy - age)` as a float. -/
theorem get_delingsfaktor_nav_piecewise (a b l : ℤ) :
    get_delingsfaktor_nav a b l =
      if 62 ≤ a ∧ a ≤ 67 then
        (if a = 62 then 2006/100 else if a = 63 then 1925/100
         else if a = 64 then 1844/100 else if a = 65 then 1763/100
         else if a = 66 then 1683/100 else 1602/100)
      else if 68 ≤ a ∧ a ≤ 75 then
        max 1 (1602/100 - (9/10) * ((a - 67 : ℤ) : ℚ))
      else ((max 1 (l - a) : ℤ) : ℚ) :=
  delingsfaktor_eq_cases a b l

/-- C6: `get_delingsfaktor_nav` returns a strictly positive value for every
retirement age, birth year and life expectancy, with no precondition. -/
theorem get_delingsfaktor_nav_pos (a b l : ℤ) : 0 < get_delingsfaktor_nav a b l :=
  lt_of_lt_of_le one_pos (one_le_delingsfaktor a b l)

/-- C5: for every balance at most 0, `annual_pension_from_balance` returns
exactly 0, whatever the other parameters are. -/
theorem annual_pension_nonpos_balance (balance : ℚ) (a b l : ℤ) (u : Bool)
    (h : balance ≤ 0) : annual_pension_from_balance balance a b l u = 0 := by
  unfold annual_pension_from_balance
  rw [if_pos h]

/-- Witness for C5 at balance -5. -/
theorem annual_pension_nonpos_balance_witness :
    ((-5 : ℚ) ≤ 0) ∧ annual_pension_from_balance (-5) 67 1989 90 true = 0 :=
  ⟨by norm_num, annual_pension_nonpos_balance (-5) 67 1989 90 true (by norm_num)⟩

/-- C9: for every positive balance, `annual_pension_from_balance` with
`use_nav_style = true` returns exactly the balance divided by
`get_delingsfaktor_nav`, at every pension age — for ages below 62 the
inlined `max(1, life_expectancy - pension_age)` fallback of the annuitizer
coincides with the fallback branch of the resolver. -/
theorem annual_pension_nav_eq_div (balance : ℚ) (a b l : ℤ) (h : 0 < balance) :
    annual_pension_from_balance balance a b l true =
      balance / get_delingsfaktor_nav a b l := by
  simp only [annual_pension_from_balance]
  rw [if_neg (not_le.mpr h)]
  by_cases ha : MIN_NAV_PENSION_AGE ≤ a
  · simp [ha]
  · have ha62 : a < 62 := by unfold MIN_NAV_PENSION_AGE at ha; omega
    have h1 : ¬ (62 ≤ a ∧ a ≤ 67) := by omega
    have h2 : ¬ (68 ≤ a ∧ a ≤ 75) := by omega
    rw [delingsfaktor_eq_cases, if_neg h1, if_neg h2]
    simp [ha]

/-- Witness for C9 at balance 10, pension age 50 (below 62), life
expectancy 80. -/
theorem annual_pension_nav_eq_div_witness :
    ((0 : ℚ) < 10) ∧
      annual_pension_from_balance 10 50 1989 80 true =
        10 / get_delingsfaktor_nav 50 1989 80 :=
  ⟨by norm_num, annual_pension_nav_eq_div 10 50 1989 80 (by norm_num)⟩

/-- C10: the annual pension always lies between 0 and `max balance 0`:
the divisor is at least 1, so the annual income never exceeds the lump
balance and is never negative. -/
theorem annual_pension_bounds (balance : ℚ) (a b l : ℤ) (u : Bool) :
    0 ≤ annual_pension_from_balance balance a b l u ∧
      annual_pension_from_balance balance a b l u ≤ max balance 0 := by
  simp only [annual_pension_from_balance]
  by_cases h : balance ≤ 0
  · rw [if_pos h]
    exact ⟨le_refl 0, le_max_right balance 0⟩
  · rw [if_neg h]
    push_neg at h
    rw [max_eq_left h.le]
    split_ifs with hc
    · exact ⟨div_nonneg h.le (le_trans zero_le_one (one_le_delingsfaktor a b l)),
        div_le_self h.le (one_le_delingsfaktor a b l)⟩
    · have h1 : (1 : ℚ) ≤ ((max 1 (l - a) : ℤ) : ℚ) := by
        exact_mod_cast le_max_left (1 : ℤ) (l - a)
      exact ⟨div_nonneg h.le (le_trans zero_le_one h1), div_le_self h.le h1⟩

/-- C3: `simulate_until_pension_age` fails with a validation error exactly
when `pension_age ≤ current_age` or `pension_age > life_expectancy`, and
returns normally otherwise. -/
theorem simulate_error_iff (i : PensionInputs) (w p : ℤ) :
    ((∃ e, simulate_until_pension_age i w p = Except.error e) ↔
      (p ≤ i.current_age ∨ i.life_expectancy < p)) ∧
    ((∃ t, simulate_until_pension_age i w p = Except.ok t) ↔
      (i.current_age < p ∧ p ≤ i.life_expectancy)) := by
  unfold simulate_until_pension_age
  split_ifs with h1 h2 <;> constructor <;> simp <;> omega

/-- The disjunction of the ten validation failure conditions of
`PensionInputs.__post_init__`. -/
def badInputs (cy ca byr : ℤ)
    (cfb cob cs asv ars g sg : ℚ) (lexp : ℤ) : Prop :=
  ¬ (0 ≤ ca ∧ ca ≤ 120) ∨ lexp ≤ ca ∨ ¬ (1900 ≤ byr ∧ byr ≤ cy) ∨
    cfb < 0 ∨ cob < 0 ∨ cs < 0 ∨ asv < 0 ∨ ars < 0 ∨ g ≤ 0 ∨ sg < 0

/-- The constructor errors exactly on a violated validation rule. -/
lemma mkPensionInputs_err (cy ca byr : ℤ)
    (cfb cob cs asv ars g sg sar obr oar fg og svg : ℚ) (lexp : ℤ) :
    (∃ e, mkPensionInputs cy ca byr cfb cob cs asv ars g sg
        sar obr oar fg og svg lexp = Except.error e) ↔
      badInputs cy ca byr cfb cob cs asv ars g sg lexp := by
  unfold mkPensionInputs badInputs
  by_cases h1 : ¬ (0 ≤ ca ∧ ca ≤ 120)
  · rw [if_pos h1]; exact iff_of_true ⟨_, rfl⟩ (Or.inl h1)
  rw [if_neg h1]
  by_cases h2 : lexp ≤ ca
  · rw [if_pos h2]; exact iff_of_true ⟨_, rfl⟩ (Or.inr (Or.inl h2))
  rw [if_neg h2]
  by_cases h3 : ¬ (1900 ≤ byr ∧ byr ≤ cy)
  · rw [if_pos h3]; exact iff_of_true ⟨_, rfl⟩ (Or.inr (Or.inr (Or.inl h3)))
  rw [if_neg h3]
  by_cases h4 : cfb < 0
  · rw [if_pos h4]
    exact iff_of_true ⟨_, rfl⟩ (Or.inr (Or.inr (Or.inr (Or.inl h4))))
  rw [if_neg h4]
  by_cases h5 : cob < 0
  · rw [if_pos h5]
    exact iff_of_true ⟨_, rfl⟩ (Or.inr (Or.inr (Or.inr (Or.inr (Or.inl h5)))))
  rw [if_neg h5]
  by_cases h6 : cs < 0
  · rw [if_pos h6]
    exact iff_of_true ⟨_, rfl⟩
      (Or.inr (Or.inr (Or.inr (Or.inr (Or.inr (Or.inl h6))))))
  rw [if_neg h6]
  by_cases h7 : asv < 0
  · rw [if_pos h7]
    exact iff_of_true ⟨_, rfl⟩
      (Or.inr (Or.inr (Or.inr (Or.inr (Or.inr (Or.inr (Or.inl h7)))))))
  rw [if_neg h7]
  by_cases h8 : ars < 0
  · rw [if_pos h8]
    exact iff_of_true ⟨_, rfl⟩
      (Or.inr (Or.inr (Or.inr (Or.inr (Or.inr (Or.inr (Or.inr (Or.inl h8))))))))
  rw [if_neg h8]
  by_cases h9 : g ≤ 0
  · rw [if_pos h9]
    exact iff_of_true ⟨_, rfl⟩
      (Or.inr (Or.inr (Or.inr (Or.inr (Or.inr (Or.inr (Or.inr (Or.inr (Or.inl h9)))))))))
  rw [if_neg h9]
  by_cases h10 : sg < 0
  · rw [if_pos h10]
    exact iff_of_true ⟨_, rfl⟩
      (Or.inr (Or.inr (Or.inr (Or.inr (Or.inr (Or.inr (Or.inr (Or.inr (Or.inr h10)))))))))
  rw [if_neg h10]
  refine iff_of_false (fun he => ?_) ?_
  · obtain ⟨e, he⟩ := he
    exact Except.noConfusion he
  · simp only [not_or]
    exact ⟨h1, h2, h3, h4, h5, h6, h7, h8, h9, h10⟩

/-- The constructor succeeds with the given field values exactly when no
validation rule is violated. -/
lemma mkPensionInputs_ok (cy ca byr : ℤ)
    (cfb cob cs asv ars g sg sar obr oar fg og svg : ℚ) (lexp : ℤ) :
    (mkPensionInputs cy ca byr cfb cob cs asv ars g sg
        sar obr oar fg og svg lexp = Except.ok
          { current_age := ca
            birth_year := byr
            current_folketrygd_balance := cfb
            current_otp_balance := cob
            current_savings := cs
            annual_savings := asv
            annual_rental_savings := ars
            g_amount := g
            salary_in_g := sg
            state_accrual_rate := sar
            otp_below_rate := obr
            otp_above_rate := oar
            folketrygd_growth := fg
            otp_growth := og
            savings_growth := svg
            life_expectancy := lexp }) ↔
      ¬ badInputs cy ca byr cfb cob cs asv ars g sg lexp := by
  unfold mkPensionInputs badInputs
  by_cases h1 : ¬ (0 ≤ ca ∧ ca ≤ 120)
  · rw [if_pos h1]
    exact iff_of_false (fun he => Except.noConfusion he) (not_not_intro (Or.inl h1))
  rw [if_neg h1]
  by_cases h2 : lexp ≤ ca
  · rw [if_pos h2]
    exact iff_of_false (fun he => Except.noConfusion he)
      (not_not_intro (Or.inr (Or.inl h2)))
  rw [if_neg h2]
  by_cases h3 : ¬ (1900 ≤ byr ∧ byr ≤ cy)
  · rw [if_pos h3]
    exact iff_of_false (fun he => Except.noConfusion he)
      (not_not_intro (Or.inr (Or.inr (Or.inl h3))))
  rw [if_neg h3]
  by_cases h4 : cfb < 0
  · rw [if_pos h4]
    exact iff_of_false (fun he => Except.noConfusion he)
      (not_not_intro (Or.inr (Or.inr (Or.inr (Or.inl h4)))))
  rw [if_neg h4]
  by_cases h5 : cob < 0
  · rw [if_pos h5]
    exact iff_of_false (fun he => Except.noConfusion he)
      (not_not_intro (Or.inr (Or.inr (Or.inr (Or.inr (Or.inl h5))))))
  rw [if_neg h5]
  by_cases h6 : cs < 0
  · rw [if_pos h6]
    exact iff_of_false (fun he => Except.noConfusion he)
      (not_not_intro (Or.inr (Or.inr (Or.inr (Or.inr (Or.inr (Or.inl h6)))))))
  rw [if_neg h6]
  by_cases h7 : asv < 0
  · rw [if_pos h7]
    exact iff_of_false (fun he => Except.noConfusion he)
      (not_not_intro (Or.inr (Or.inr (Or.inr (Or.inr (Or.inr (Or.inr (Or.inl h7))))))))
  rw [if_neg h7]
  by_cases h8 : ars < 0
  · rw [if_pos h8]
    exact iff_of_false (fun he => Except.noConfusion he)
      (not_not_intro
        (Or.inr (Or.inr (Or.inr (Or.inr (Or.inr (Or.inr (Or.inr (Or.inl h8)))))))))
  rw [if_neg h8]
  by_cases h9 : g ≤ 0
  · rw [if_pos h9]
    exact iff_of_false (fun he => Except.noConfusion he)
      (not_not_intro
        (Or.inr (Or.inr (Or.inr (Or.inr (Or.inr (Or.inr (Or.inr (Or.inr (Or.inl h9))))))))))
  rw [if_neg h9]
  by_cases h10 : sg < 0
  · rw [if_pos h10]
    exact iff_of_false (fun he => Except.noConfusion he)
      (not_not_intro
        (Or.inr (Or.inr (Or.inr (Or.inr (Or.inr (Or.inr (Or.inr (Or.inr (Or.inr h10))))))))))
  rw [if_neg h10]
  refine iff_of_true rfl ?_
  simp only [not_or]
  exact ⟨h1, h2, h3, h4, h5, h6, h7, h8, h9, h10⟩

/-- C4: construction of a `PensionInputs` bundle fails with a `ValueError`
exactly when at least one validation rule is violated (age out of 0..120,
life expectancy not exceeding current age, birth year outside 1900..current
calendar year, a negative monetary or flow amount, non-positive G amount,
or negative salary multiplier); when none is violated it succeeds with the
given field values. -/
theorem mkPensionInputs_error_iff (cy ca byr : ℤ)
    (cfb cob cs asv ars g sg sar obr oar fg og svg : ℚ) (lexp : ℤ) :
    ((∃ e, mkPensionInputs cy ca byr cfb cob cs asv ars g sg
        sar obr oar fg og svg lexp = Except.error e) ↔
      (¬ (0 ≤ ca ∧ ca ≤ 120) ∨ lexp ≤ ca ∨ ¬ (1900 ≤ byr ∧ byr ≤ cy) ∨
        cfb < 0 ∨ cob < 0 ∨ cs < 0 ∨ asv < 0 ∨ ars < 0 ∨ g ≤ 0 ∨ sg < 0)) ∧
    ((mkPensionInputs cy ca byr cfb cob cs asv ars g sg
        sar obr oar fg og svg lexp = Except.ok
          { current_age := ca
            birth_year := byr
            current_folketrygd_balance := cfb
            current_otp_balance := cob
            current_savings := cs
            annual_savings := asv
            annual_rental_savings := ars
            g_amount := g
            salary_in_g := sg
            state_accrual_rate := sar
            otp_below_rate := obr
            otp_above_rate := oar
            folketrygd_growth := fg
            otp_growth := og
            savings_growth := svg
            life_expectancy := lexp }) ↔
      ¬ (¬ (0 ≤ ca ∧ ca ≤ 120) ∨ lexp ≤ ca ∨ ¬ (1900 ≤ byr ∧ byr ≤ cy) ∨
        cfb < 0 ∨ cob < 0 ∨ cs < 0 ∨ asv < 0 ∨ ars < 0 ∨ g ≤ 0 ∨ sg < 0)) :=
  ⟨mkPensionInputs_err cy ca byr cfb cob cs asv ars g sg sar obr oar fg og svg lexp,
   mkPensionInputs_ok cy ca byr cfb cob cs asv ars g sg sar obr oar fg og svg lexp⟩

/-- The per-age step exactly as the specification words it (C1): while
`age < work_until_age`, add `min(salary, 7.1*g_amount)*state_accrual_rate`
to the state balance, `min(salary, 7.1*g_amount)*otp_below_rate +
max(0, salary - min(salary, 7.1*g_amount))*otp_above_rate` to the
occupational balance and `annual_savings + annual_rental_savings` to the
savings balance, where `salary = g_amount*salary_in_g`; then multiply the
three balances by `1 + folketrygd_growth`, `1 + otp_growth` and
`1 + savings_growth`. Stated from the words of the spec, to be compared
with `simStep`, which is translated from the code. -/
def specStepC1 (i : PensionInputs) (work_until_age age : ℤ)
    (b : ℚ × ℚ × ℚ) : ℚ × ℚ × ℚ :=
  let salary := i.g_amount * i.salary_in_g
  let capped := min salary ((71/10) * i.g_amount)
  let afterWork : ℚ × ℚ × ℚ :=
    if age < work_until_age then
      (b.1 + capped * i.state_accrual_rate,
       b.2.1 + (capped * i.otp_below_rate
         + max 0 (salary - capped) * i.otp_above_rate),
       b.2.2 + (i.annual_savings + i.annual_rental_savings))
    else b
  (afterWork.1 * (1 + i.folketrygd_growth),
   afterWork.2.1 * (1 + i.otp_growth),
   afterWork.2.2 * (1 + i.savings_growth))

/-- The code step agrees with the step worded by the spec. -/
lemma simStep_eq_specStepC1 (i : PensionInputs) (w a : ℤ) (b : ℚ × ℚ × ℚ) :
    simStep i w a b = specStepC1 i w a b := by
  unfold simStep specStepC1 SALARY_CAP_IN_G
  by_cases h : a < w
  · simp only [if_pos h, Prod.mk.injEq]
    refine ⟨?_, ?_, ?_⟩ <;> ring_nf
  · simp only [if_neg h]

/-- Unrolling the simulation loop as a left fold over the step indices. -/
lemma simLoop_eq_foldl (i : PensionInputs) (w : ℤ) :
    ∀ (n : ℕ) (a : ℤ) (b : ℚ × ℚ × ℚ),
      simLoop i w a n b =
        (List.range n).foldl (fun c (k : ℕ) => simStep i w (a + (k : ℤ)) c) b := by
  intro n
  induction n with
  | zero => intro a b; rfl
  | succ m ih =>
      intro a b
      rw [List.range_succ_eq_map, List.foldl_cons, List.foldl_map]
      show simLoop i w (a + 1) m (simStep i w a b) = _
      rw [ih (a + 1) (simStep i w a b)]
      have hfun : (fun (c : ℚ × ℚ × ℚ) (k : ℕ) => simStep i w ((a + 1) + (k : ℤ)) c)
          = fun c k => simStep i w (a + ((Nat.succ k : ℕ) : ℤ)) c := by
        funext c k
        have : (a + 1) + (k : ℤ) = a + ((Nat.succ k : ℕ) : ℤ) := by push_cast; ring
        rw [this]
      have hinit : simStep i w a b = simStep i w (a + ((0 : ℕ) : ℤ)) b := by norm_num
      rw [hfun, hinit]

/-- C1: under the preconditions, `simulate_until_pension_age` returns the
triple obtained by starting from the three current balances of the bundle
and performing exactly `pension_age - current_age` steps, one per integer
age from `current_age` (inclusive) to `pension_age` (exclusive), each step
being the one worded by the spec (`specStepC1`). -/
theorem simulate_eq_spec_foldl (i : PensionInputs) (w p : ℤ)
    (h1 : i.current_age < p) (h2 : p ≤ i.life_expectancy) :
    simulate_until_pension_age i w p =
      Except.ok ((List.range (p - i.current_age).toNat).foldl
        (fun b (k : ℕ) => specStepC1 i w (i.current_age + (k : ℤ)) b)
        (i.current_folketrygd_balance, i.current_otp_balance,
         i.current_savings)) := by
  unfold simulate_until_pension_age
  rw [if_neg (show ¬ p ≤ i.current_age by omega),
    if_neg (show ¬ p > i.life_expectancy by omega)]
  rw [simLoop_eq_foldl]
  have hfun : (fun (b : ℚ × ℚ × ℚ) (k : ℕ) => simStep i w (i.current_age + (k : ℤ)) b)
      = fun (b : ℚ × ℚ × ℚ) (k : ℕ) => specStepC1 i w (i.current_age + (k : ℤ)) b := by
    funext b k
    exact simStep_eq_specStepC1 i w (i.current_age + (k : ℤ)) b
  rw [hfun]

/-- A concrete bundle for the C1 witness. -/
def c1Bundle : PensionInputs :=
  { current_age := 36
    birth_year := 1989
    current_folketrygd_balance := 1000
    current_otp_balance := 2000
    current_savings := 3000
    annual_savings := 100
    annual_rental_savings := 50
    g_amount := 100
    salary_in_g := 8
    state_accrual_rate := 18/100
    otp_below_rate := 7/100
    otp_above_rate := 18/100
    folketrygd_growth := 2/100
    otp_growth := 4/100
    savings_growth := 5/100
    life_expectancy := 90 }

/-- Witness for C1: the preconditions hold and the theorem applies at a
concrete bundle with two simulated years. -/
theorem simulate_eq_spec_foldl_witness :
    (c1Bundle.current_age < 38 ∧ (38 : ℤ) ≤ c1Bundle.life_expectancy) ∧
      simulate_until_pension_age c1Bundle 37 38 =
        Except.ok ((List.range ((38 : ℤ) - c1Bundle.current_age).toNat).foldl
          (fun b (k : ℕ) => specStepC1 c1Bundle 37 (c1Bundle.current_age + (k : ℤ)) b)
          (c1Bundle.current_folketrygd_balance, c1Bundle.current_otp_balance,
           c1Bundle.current_savings)) :=
  ⟨⟨by norm_num [c1Bundle], by norm_num [c1Bundle]⟩,
    simulate_eq_spec_foldl c1Bundle 37 38 (by norm_num [c1Bundle])
      (by norm_num [c1Bundle])⟩

/-- A bundle with every rate and flow set to zero, used for C7:
`current_age = 36`, starting balances `(1000, 2000, 3000)`. -/
def zeroRatesBundle : PensionInputs :=
  { current_age := 36
    birth_year := 1989
    current_folketrygd_balance := 1000
    current_otp_balance := 2000
    current_savings := 3000
    annual_savings := 0
    annual_rental_savings := 0
    g_amount := 124028
    salary_in_g := 71/10
    state_accrual_rate := 0
    otp_below_rate := 0
    otp_above_rate := 0
    folketrygd_growth := 0
    otp_growth := 0
    savings_growth := 0
    life_expectancy := 90 }

/-- Counterexample to C7 as stated: with every rate and flow zero and
`retirement_age = current_age = 36` (which satisfies the claimed
hypothesis `retirement_age ≥ current_age`), the projector does not return
the starting balances — it raises the precondition `ValueError` instead,
because the code requires `pension_age > current_age` strictly. -/
theorem simulate_zero_rates_counterexample :
    (36 : ℤ) ≥ zeroRatesBundle.current_age ∧
      simulate_until_pension_age zeroRatesBundle 67 36 ≠
        Except.ok (zeroRatesBundle.current_folketrygd_balance,
          zeroRatesBundle.current_otp_balance, zeroRatesBundle.current_savings) := by
  constructor
  · norm_num [zeroRatesBundle]
  · have h : simulate_until_pension_age zeroRatesBundle 67 36 =
        Except.error "pension_age must be greater than current_age" := by
      unfold simulate_until_pension_age
      rw [if_pos]
      norm_num [zeroRatesBundle]
    rw [h]
    intro hc
    exact Except.noConfusion hc

/-- With all rates and flows zero, one loop step leaves the balances
unchanged. -/
lemma simStep_zero (i : PensionInputs) (w a : ℤ)
    (hsar : i.state_accrual_rate = 0) (hbr : i.otp_below_rate = 0)
    (har : i.otp_above_rate = 0) (hfg : i.folketrygd_growth = 0)
    (hog : i.otp_growth = 0) (hsg : i.savings_growth = 0)
    (hasv : i.annual_savings = 0) (hars : i.annual_rental_savings = 0)
    (b : ℚ × ℚ × ℚ) : simStep i w a b = b := by
  unfold simStep
  by_cases h : a < w <;>
    simp [h, hsar, hbr, har, hfg, hog, hsg, hasv, hars]

/-- With all rates and flows zero, the whole loop is the identity. -/
lemma simLoop_zero (i : PensionInputs) (w : ℤ)
    (hsar : i.state_accrual_rate = 0) (hbr : i.otp_below_rate = 0)
    (har : i.otp_above_rate = 0) (hfg : i.folketrygd_growth = 0)
    (hog : i.otp_growth = 0) (hsg : i.savings_growth = 0)
    (hasv : i.annual_savings = 0) (hars : i.annual_rental_savings = 0) :
    ∀ (n : ℕ) (a : ℤ) (b : ℚ × ℚ × ℚ), simLoop i w a n b = b := by
  intro n
  induction n with
  | zero => intro a b; rfl
  | succ m ih =>
      intro a b
      show simLoop i w (a + 1) m (simStep i w a b) = b
      rw [simStep_zero i w a hsar hbr har hfg hog hsg hasv hars b, ih]

/-- C7 amended: if all six rates and both flows are zero, then for any
retirement age satisfying the preconditions of the projector
(`current_age < retirement_age ≤ life_expectancy`; the claim originally
said only `retirement_age ≥ current_age`, but the code raises a
`ValueError` when `retirement_age = current_age`),
`simulate_until_pension_age` returns exactly the starting balances, for
any `work_until_age`. -/
theorem simulate_zero_rates (i : PensionInputs) (w p : ℤ)
    (hsar : i.state_accrual_rate = 0) (hbr : i.otp_below_rate = 0)
    (har : i.otp_above_rate = 0) (hfg : i.folketrygd_growth = 0)
    (hog : i.otp_growth = 0) (hsg : i.savings_growth = 0)
    (hasv : i.annual_savings = 0) (hars : i.annual_rental_savings = 0)
    (h1 : i.current_age < p) (h2 : p ≤ i.life_expectancy) :
    simulate_until_pension_age i w p =
      Except.ok (i.current_folketrygd_balance, i.current_otp_balance,
        i.current_savings) := by
  unfold simulate_until_pension_age
  rw [if_neg (show ¬ p ≤ i.current_age by omega),
    if_neg (show ¬ p > i.life_expectancy by omega),
    simLoop_zero i w hsar hbr har hfg hog hsg hasv hars]

/-- Witness for C7 amended: the zero-rates bundle projected to age 40
returns its starting balances. -/
theorem simulate_zero_rates_witness :
    simulate_until_pension_age zeroRatesBundle 67 40 =
      Except.ok (zeroRatesBundle.current_folketrygd_balance,
        zeroRatesBundle.current_otp_balance, zeroRatesBundle.current_savings) :=
  simulate_zero_rates zeroRatesBundle 67 40 rfl rfl rfl rfl rfl rfl rfl rfl
    (by norm_num [zeroRatesBundle]) (by norm_num [zeroRatesBundle])

/-- One step preserves componentwise comparison of the state and
occupational balances (and equality of savings) between two bundles that
differ only in `salary_in_g`, when the accrual rates are nonnegative and
the growth factors are nonnegative. -/
lemma simStep_mono (i : PensionInputs) (x1 x2 : ℚ) (w a : ℤ)
    (hg : 0 ≤ i.g_amount) (hsar : 0 ≤ i.state_accrual_rate)
    (hbr : 0 ≤ i.otp_below_rate) (har : 0 ≤ i.otp_above_rate)
    (hfg : -1 ≤ i.folketrygd_growth) (hog : -1 ≤ i.otp_growth)
    (hx : x1 ≤ x2) (b1 b2 : ℚ × ℚ × ℚ)
    (hf : b1.1 ≤ b2.1) (ho : b1.2.1 ≤ b2.2.1) (hs : b1.2.2 = b2.2.2) :
    (simStep { i with salary_in_g := x1 } w a b1).1 ≤
        (simStep { i with salary_in_g := x2 } w a b2).1 ∧
      (simStep { i with salary_in_g := x1 } w a b1).2.1 ≤
        (simStep { i with salary_in_g := x2 } w a b2).2.1 ∧
      (simStep { i with salary_in_g := x1 } w a b1).2.2 =
        (simStep { i with salary_in_g := x2 } w a b2).2.2 := by
  have h1g : (0 : ℚ) ≤ 1 + i.folketrygd_growth := by linarith
  have h1o : (0 : ℚ) ≤ 1 + i.otp_growth := by linarith
  have hsal : i.g_amount * x1 ≤ i.g_amount * x2 := mul_le_mul_of_nonneg_left hx hg
  have hcap : min (i.g_amount * x1) (i.g_amount * SALARY_CAP_IN_G) ≤
      min (i.g_amount * x2) (i.g_amount * SALARY_CAP_IN_G) :=
    min_le_min hsal le_rfl
  have esub : ∀ s : ℚ, s - min s (i.g_amount * SALARY_CAP_IN_G) =
      max 0 (s - i.g_amount * SALARY_CAP_IN_G) := by
    intro s
    rcases le_total s (i.g_amount * SALARY_CAP_IN_G) with h | h
    · rw [min_eq_left h, max_eq_left (sub_nonpos.mpr h), sub_self]
    · rw [min_eq_right h, max_eq_right (sub_nonneg.mpr h)]
  have habove : max 0 (i.g_amount * x1 - min (i.g_amount * x1) (i.g_amount * SALARY_CAP_IN_G)) ≤
      max 0 (i.g_amount * x2 - min (i.g_amount * x2) (i.g_amount * SALARY_CAP_IN_G)) := by
    rw [esub, esub]
    exact max_le_max le_rfl (max_le_max le_rfl (sub_le_sub_right hsal _))
  unfold simStep
  by_cases h : a < w
  · simp only [if_pos h]
    refine ⟨?_, ?_, ?_⟩
    · exact mul_le_mul_of_nonneg_right
        (add_le_add hf (mul_le_mul_of_nonneg_right hcap hsar)) h1g
    · exact mul_le_mul_of_nonneg_right
        (add_le_add ho (add_le_add (mul_le_mul_of_nonneg_right hcap hbr)
          (mul_le_mul_of_nonneg_right habove har))) h1o
    · rw [hs]
  · simp only [if_neg h]
    exact ⟨mul_le_mul_of_nonneg_right hf h1g,
      mul_le_mul_of_nonneg_right ho h1o, by rw [hs]⟩

/-- The loop preserves the componentwise comparison of `simStep_mono`. -/
lemma simLoop_mono (i : PensionInputs) (x1 x2 : ℚ) (w : ℤ)
    (hg : 0 ≤ i.g_amount) (hsar : 0 ≤ i.state_accrual_rate)
    (hbr : 0 ≤ i.otp_below_rate) (har : 0 ≤ i.otp_above_rate)
    (hfg : -1 ≤ i.folketrygd_growth) (hog : -1 ≤ i.otp_growth)
    (hx : x1 ≤ x2) :
    ∀ (n : ℕ) (a : ℤ) (b1 b2 : ℚ × ℚ × ℚ),
      b1.1 ≤ b2.1 → b1.2.1 ≤ b2.2.1 → b1.2.2 = b2.2.2 →
      (simLoop { i with salary_in_g := x1 } w a n b1).1 ≤
          (simLoop { i with salary_in_g := x2 } w a n b2).1 ∧
        (simLoop { i with salary_in_g := x1 } w a n b1).2.1 ≤
          (simLoop { i with salary_in_g := x2 } w a n b2).2.1 ∧
        (simLoop { i with salary_in_g := x1 } w a n b1).2.2 =
          (simLoop { i with salary_in_g := x2 } w a n b2).2.2 := by
  intro n
  induction n with
  | zero => intro a b1 b2 hf ho hs; exact ⟨hf, ho, hs⟩
  | succ m ih =>
      intro a b1 b2 hf ho hs
      obtain ⟨hf2, ho2, hs2⟩ :=
        simStep_mono i x1 x2 w a hg hsar hbr har hfg hog hx b1 b2 hf ho hs
      exact ih (a + 1) _ _ hf2 ho2 hs2

/-- C8 amended: for two bundles differing only in `salary_in_g`, with
nonnegative `g_amount`, nonnegative accrual rates
(`state_accrual_rate`, `otp_below_rate`, `otp_above_rate`) and state and
occupational growth rates at least -1, the bundle with the larger
`salary_in_g` yields final state and occupational balances at least as
large (the claim as frozen put no sign condition on the rates, and fails
for negative rates, which the bundle validation does not exclude). -/
theorem simulate_salary_mono (i : PensionInputs) (x1 x2 : ℚ) (w p : ℤ)
    (hg : 0 ≤ i.g_amount) (hsar : 0 ≤ i.state_accrual_rate)
    (hbr : 0 ≤ i.otp_below_rate) (har : 0 ≤ i.otp_above_rate)
    (hfg : -1 ≤ i.folketrygd_growth) (hog : -1 ≤ i.otp_growth)
    (hx : x1 ≤ x2) (t1 t2 : ℚ × ℚ × ℚ)
    (e1 : simulate_until_pension_age { i with salary_in_g := x1 } w p =
      Except.ok t1)
    (e2 : simulate_until_pension_age { i with salary_in_g := x2 } w p =
      Except.ok t2) :
    t1.1 ≤ t2.1 ∧ t1.2.1 ≤ t2.2.1 := by
  unfold simulate_until_pension_age at e1 e2
  dsimp only at e1 e2
  by_cases hc1 : p ≤ i.current_age
  · rw [if_pos hc1] at e1
    exact Except.noConfusion e1
  by_cases hc2 : p > i.life_expectancy
  · rw [if_neg hc1, if_pos hc2] at e1
    exact Except.noConfusion e1
  rw [if_neg hc1, if_neg hc2] at e1 e2
  injection e1 with e1h
  injection e2 with e2h
  subst e1h
  subst e2h
  obtain ⟨hf, ho, _⟩ :=
    simLoop_mono i x1 x2 w hg hsar hbr har hfg hog hx
      ((p - i.current_age).toNat) i.current_age
      (i.current_folketrygd_balance, i.current_otp_balance, i.current_savings)
      (i.current_folketrygd_balance, i.current_otp_balance, i.current_savings)
      le_rfl le_rfl rfl
  exact ⟨hf, ho⟩

/-- A bundle with `otp_below_rate = -1` (the validation never constrains
the rates) and `salary_in_g = 0`; passes every validation rule. -/
def cexSalaryLo : PensionInputs :=
  { current_age := 36
    birth_year := 1989
    current_folketrygd_balance := 0
    current_otp_balance := 0
    current_savings := 0
    annual_savings := 0
    annual_rental_savings := 0
    g_amount := 1
    salary_in_g := 0
    state_accrual_rate := 0
    otp_below_rate := -1
    otp_above_rate := 0
    folketrygd_growth := 0
    otp_growth := 0
    savings_growth := 0
    life_expectancy := 90 }

/-- The same bundle as `cexSalaryLo` with `salary_in_g = 1` instead of 0:
the two differ only in `salary_in_g`. -/
def cexSalaryHi : PensionInputs :=
  { cexSalaryLo with salary_in_g := 1 }

/-- Counterexample to C8 as stated: the two bundles differ only in
`salary_in_g` (0 versus 1) and satisfy the preconditions of the projector
with `work_until_age = 100`, `pension_age = 37`, yet the bundle with the
larger salary ends with occupational balance -1, strictly below the 0 of
the smaller salary, because `otp_below_rate` is negative and the bundle
validation puts no constraint on the rates. -/
theorem simulate_salary_mono_counterexample :
    cexSalaryLo.salary_in_g ≤ cexSalaryHi.salary_in_g ∧
      simulate_until_pension_age cexSalaryLo 100 37 = Except.ok (0, 0, 0) ∧
      simulate_until_pension_age cexSalaryHi 100 37 = Except.ok (0, -1, 0) ∧
      ¬ ((0 : ℚ) ≤ -1) := by
  refine ⟨by norm_num [cexSalaryLo, cexSalaryHi], ?_, ?_, by norm_num⟩
  · norm_num [simulate_until_pension_age, simLoop, simStep,
      cexSalaryLo, SALARY_CAP_IN_G]
  · norm_num [simulate_until_pension_age, simLoop, simStep,
      cexSalaryHi, cexSalaryLo, SALARY_CAP_IN_G]

/-- A benign bundle for the C8 witness: unit G amount, unit rates, zero
growth, one simulated year. -/
def monoBundle : PensionInputs :=
  { current_age := 36
    birth_year := 1989
    current_folketrygd_balance := 0
    current_otp_balance := 0
    current_savings := 0
    annual_savings := 0
    annual_rental_savings := 0
    g_amount := 1
    salary_in_g := 0
    state_accrual_rate := 1
    otp_below_rate := 1
    otp_above_rate := 1
    folketrygd_growth := 0
    otp_growth := 0
    savings_growth := 0
    life_expectancy := 90 }

/-- Witness for C8 amended: at salaries 1 and 2 the theorem applies and
its conclusion holds on the concretely computed final balances. -/
theorem simulate_salary_mono_witness :
    simulate_until_pension_age { monoBundle with salary_in_g := 1 } 100 37 =
        Except.ok (1, 1, 0) ∧
      simulate_until_pension_age { monoBundle with salary_in_g := 2 } 100 37 =
        Except.ok (2, 2, 0) ∧
      ((1 : ℚ) ≤ 2 ∧ (1 : ℚ) ≤ 2) := by
  have e1 : simulate_until_pension_age { monoBundle with salary_in_g := 1 } 100 37 =
      Except.ok (1, 1, 0) := by
    norm_num [simulate_until_pension_age, simLoop, simStep, monoBundle, SALARY_CAP_IN_G]
  have e2 : simulate_until_pension_age { monoBundle with salary_in_g := 2 } 100 37 =
      Except.ok (2, 2, 0) := by
    norm_num [simulate_until_pension_age, simLoop, simStep, monoBundle, SALARY_CAP_IN_G]
  exact ⟨e1, e2,
    simulate_salary_mono monoBundle 1 2 100 37 (by norm_num [monoBundle])
      (by norm_num [monoBundle]) (by norm_num [monoBundle]) (by norm_num [monoBundle])
      (by norm_num [monoBundle]) (by norm_num [monoBundle]) (by norm_num)
      (1, 1, 0) (2, 2, 0) e1 e2⟩

end PensjonSim
